import Mathlib

/-!
Verification development for the le-marche legacy migration command
(`lemarche/cocorico/management/commands/migrate_data_to_django.py`) and the
BAN geocoding helper (`lemarche/utils/apis/geocoding.py`), via a shallow
embedding of the relevant Python functions.  Machine integers are modelled as
`Int` (Python integers are unbounded), Python `None`/SQL NULL as `Option`,
and raised exceptions as `Except` errors.
-/

set_option maxHeartbeats 1000000

/-! ### Enumeration mappers: `map_siae_nature`, `map_geo_range`, `map_user_kind` -/

/-- Destination enum constants `Siae.NATURE_HEAD_OFFICE` / `Siae.NATURE_ANTENNA`
(declared in the Django model, outside the migration command). -/
inductive SiaeNature
  | head_office
  | antenna
deriving DecidableEq

/-- Destination constants `siae_constants.GEO_RANGE_*`. -/
inductive GeoRange
  | country
  | region
  | department
  | custom
deriving DecidableEq

/-- Destination constants `User.KIND_BUYER` / `KIND_SIAE` / `KIND_ADMIN` /
`KIND_PARTNER`. -/
inductive UserKind
  | buyer
  | siae
  | admin
  | partner
deriving DecidableEq

/-- The function `map_siae_nature` (migrate_data_to_django.py, lines 101-110).
The body indexes `nature_mapping[input_value]` with no `try`, so an unknown
truthy input raises `KeyError`, modelled as `Except.error ()`.  A falsy input
(`None`, or the empty string) skips the lookup and returns `None`; the
mapping's `"n/a"` entry yields `None` as well. -/
def map_siae_nature (input_value : Option String) : Except Unit (Option SiaeNature) :=
  match input_value with
  | Option.none => .ok Option.none
  | some s =>
    if s = "" then .ok Option.none
    else if s = "siege" then .ok (some .head_office)
    else if s = "antenne" then .ok (some .antenna)
    else if s = "n/a" then .ok Option.none
    else .error ()

/-- The function `map_geo_range` (lines 134-145): a dict lookup wrapped in
`try/except: return None`, so the result is total — the final arm is the
caught `KeyError`; the dict also maps `None` to `None`. -/
def map_geo_range (input_value_integer : Option Int) : Option GeoRange :=
  match input_value_integer with
  | Option.none => Option.none
  | some z =>
    if z = 3 then some .country
    else if z = 2 then some .region
    else if z = 1 then some .department
    else if z = 0 then some .custom
    else Option.none

/-- The function `map_user_kind` (lines 148-163): guarded by Python truthiness
(`if input_value_integer:`), so `None` and `0` yield `None`; the dict lookup
is wrapped in `try/except: pass`, so any unmapped code (including the
commented-out legacy codes 1 and 2) yields `None`. -/
def map_user_kind (input_value_integer : Option Int) : Option UserKind :=
  match input_value_integer with
  | Option.none => Option.none
  | some z =>
    if z = 0 then Option.none
    else if z = 3 then some .buyer
    else if z = 4 then some .siae
    else if z = 5 then some .admin
    else if z = 6 then some .partner
    else Option.none

/-- Claim C5 counterexample: `map_siae_nature` raises `KeyError` — it does not
return `None` — on an input outside the known legacy code set
(`{"siege", "antenne", "n/a"}`). -/
theorem map_siae_nature_raises_on_unknown :
    map_siae_nature (some "foo") = .error () := rfl

/-- Claim C5 (amended): `map_geo_range` and `map_user_kind` return `None` on
every input outside their mapped code sets, and cannot raise (their embedding
is total in `Option`); `map_siae_nature` returns `None` only on falsy inputs
(`None`, empty string), and raises `KeyError` on every other string outside
`siege`/`antenne`/`n/a`. -/
theorem enum_mappers_unknown_inputs :
    (∀ z : Int, z ∉ ([0, 1, 2, 3] : List Int) → map_geo_range (some z) = Option.none) ∧
    (∀ z : Int, z ∉ ([3, 4, 5, 6] : List Int) → map_user_kind (some z) = Option.none) ∧
    map_geo_range Option.none = Option.none ∧
    map_user_kind Option.none = Option.none ∧
    (∀ s : String, s ≠ "" → s ∉ (["siege", "antenne", "n/a"] : List String) →
      map_siae_nature (some s) = .error ()) ∧
    map_siae_nature Option.none = .ok Option.none ∧
    map_siae_nature (some "") = .ok Option.none := by
  refine ⟨?_, ?_, rfl, rfl, ?_, rfl, rfl⟩
  · intro z hz
    simp only [List.mem_cons, List.not_mem_nil, or_false] at hz
    push_neg at hz
    obtain ⟨h0, h1, h2, h3⟩ := hz
    simp [map_geo_range, h0, h1, h2, h3]
  · intro z hz
    simp only [List.mem_cons, List.not_mem_nil, or_false] at hz
    push_neg at hz
    obtain ⟨h3, h4, h5, h6⟩ := hz
    by_cases h0 : z = 0
    · simp [map_user_kind, h0]
    · simp [map_user_kind, h0, h3, h4, h5, h6]
  · intro s hne hmem
    simp only [List.mem_cons, List.not_mem_nil, or_false] at hmem
    push_neg at hmem
    obtain ⟨hs1, hs2, hs3⟩ := hmem
    simp [map_siae_nature, hne, hs1, hs2, hs3]

/-- Witness for the amended claim C5 at concrete unknown inputs. -/
theorem enum_mappers_unknown_inputs_witness :
    map_geo_range (some 99) = Option.none ∧
    map_user_kind (some 2) = Option.none ∧
    map_siae_nature (some "xyz") = .error () :=
  ⟨enum_mappers_unknown_inputs.1 99 (by decide),
   enum_mappers_unknown_inputs.2.1 2 (by decide),
   enum_mappers_unknown_inputs.2.2.2.2.1 "xyz" (by decide) (by decide)⟩

/-! ### `integer_to_boolean` (lines 68-79) -/

/-- Python values as they occur in legacy rows and after boolean coercion.
`vother` stands for the remaining pymysql value kinds (bytes, datetimes, ...),
tagged so that distinct objects stay distinct. -/
inductive PyVal
  | vnone
  | vint (n : Int)
  | vstr (s : String)
  | vbool (b : Bool)
  | vother (tag : Nat)
deriving DecidableEq

/-- Python `==` on the modelled values: booleans compare equal to the integers
0 and 1, values of different types otherwise compare unequal, and `vother`
values compare by tag. -/
def pyEq : PyVal → PyVal → Bool
  | .vnone, .vnone => true
  | .vint m, .vint n => m == n
  | .vstr a, .vstr b => a == b
  | .vbool a, .vbool b => a == b
  | .vbool a, .vint n => (if a then (1 : Int) else 0) == n
  | .vint n, .vbool a => n == (if a then (1 : Int) else 0)
  | .vother i, .vother j => i == j
  | _, _ => false

/-- The per-key body of `integer_to_boolean` (lines 72-79): the chain
`elem[key] in [1, "1"]` / `in [0, "0"]` / `in [None]` / `else`, where `in`
uses Python equality. -/
def coerce_boolean (v : PyVal) : PyVal :=
  if pyEq v (.vint 1) || pyEq v (.vstr "1") then .vbool true
  else if pyEq v (.vint 0) || pyEq v (.vstr "0") then .vbool false
  else if pyEq v .vnone then .vnone
  else .vbool false

/-- A row (Python dict) as a partial map from column name to value. -/
def PyRow : Type := String → Option PyVal

/-- Assignment `elem[key] = v`. -/
def PyRow.setKey (row : PyRow) (k : String) (v : PyVal) : PyRow :=
  fun k2 => if k2 = k then some v else row k2

/-- The function `integer_to_boolean` (lines 68-79): for each boolean field
name present in the row, replace its value by the coerced boolean.
`boolean_keys` abstracts `list(set(DIRECTORY_BOOLEAN_FIELDS +
USER_BOOLEAN_FIELDS))` — Django model field names declared outside this file —
and `set(...)` makes the list duplicate-free. -/
def integer_to_boolean (boolean_keys : List String) (row : PyRow) : PyRow :=
  boolean_keys.foldl
    (fun r key =>
      match r key with
      | some v => r.setKey key (coerce_boolean v)
      | Option.none => r)
    row

/-- The value mapping claim C9 states, written from the claim's words:
1 and "1" map to True, 0 and "0" map to False, None maps to None, and any
other value maps to False. -/
def claimed_boolean_mapping (v : PyVal) : PyVal :=
  if v = .vint 1 ∨ v = .vstr "1" then .vbool true
  else if v = .vint 0 ∨ v = .vstr "0" then .vbool false
  else if v = .vnone then .vnone
  else .vbool false

/-- Values that occur in a freshly fetched pymysql row: ints, strings, NULL,
and other database objects — never Python booleans.  `integer_to_boolean` is
only called on such rows (in `migrate_siae` and `migrate_user`, right after
fetching, renaming and date cleanup, none of which introduce booleans). -/
def PyVal.isDbValue : PyVal → Bool
  | .vbool _ => false
  | _ => true

theorem coerce_boolean_eq_claimed (v : PyVal) (hdb : v.isDbValue = true) :
    coerce_boolean v = claimed_boolean_mapping v := by
  cases v <;>
    simp_all [coerce_boolean, claimed_boolean_mapping, pyEq, PyVal.isDbValue]

theorem integer_to_boolean_cons (k1 : String) (keys : List String) (row : PyRow) :
    integer_to_boolean (k1 :: keys) row
      = integer_to_boolean keys
          (match row k1 with
           | some v => row.setKey k1 (coerce_boolean v)
           | Option.none => row) := rfl

theorem integer_to_boolean_not_mem (boolean_keys : List String) (row : PyRow)
    (k : String) (hk : k ∉ boolean_keys) :
    integer_to_boolean boolean_keys row k = row k := by
  induction boolean_keys generalizing row with
  | nil => rfl
  | cons k1 rest ih =>
    simp only [List.mem_cons, not_or] at hk
    obtain ⟨hne, hrest⟩ := hk
    rw [integer_to_boolean_cons]
    rcases hrow : row k1 with _ | v
    · exact ih row hrest
    · rw [ih _ hrest]
      simp [PyRow.setKey, hne]

/-- Claim C9: for every key of the row that is a boolean field name and holds
a database value, `integer_to_boolean` maps 1 and "1" to True, 0 and "0" to
False, NULL to None, and any other value to False — i.e. its result agrees
with `claimed_boolean_mapping`, the table written from the claim. -/
theorem integer_to_boolean_spec (boolean_keys : List String) (row : PyRow)
    (hnd : boolean_keys.Nodup) (k : String) (hk : k ∈ boolean_keys)
    (v : PyVal) (hv : row k = some v) (hdb : v.isDbValue = true) :
    integer_to_boolean boolean_keys row k = some (claimed_boolean_mapping v) := by
  induction boolean_keys generalizing row with
  | nil => cases hk
  | cons k1 rest ih =>
    have hnd1 : k1 ∉ rest := (List.nodup_cons.mp hnd).1
    have hndr : rest.Nodup := (List.nodup_cons.mp hnd).2
    rcases List.mem_cons.mp hk with hkk | hkr
    · subst hkk
      rw [integer_to_boolean_cons, hv, integer_to_boolean_not_mem rest _ k hnd1]
      simp [PyRow.setKey, coerce_boolean_eq_claimed v hdb]
    · have hne : k ≠ k1 := fun h => hnd1 (h ▸ hkr)
      rw [integer_to_boolean_cons]
      rcases hrow : row k1 with _ | w
      · exact ih _ hndr hkr hv
      · apply ih _ hndr hkr
        simpa [PyRow.setKey, hne] using hv

/-- Witness for claim C9 at a concrete row: the boolean key `is_active`
holding the legacy integer 1 is coerced to True. -/
theorem integer_to_boolean_spec_witness :
    integer_to_boolean ["is_active"] (fun _ => some (PyVal.vint 1)) "is_active"
      = some (PyVal.vbool true) :=
  (integer_to_boolean_spec ["is_active"] (fun _ => some (PyVal.vint 1))
      (by decide) "is_active" (by decide) (PyVal.vint 1) rfl (by decide)).trans
    (by decide)

/-! ### Per-row error handling of the migrator loops (claim C3) -/

/-- Value of `(create r).toOption`'s error side: the exception, if the
creation failed. -/
def exceptError {Err Rec : Type} : Except Err Rec → Option Err
  | .ok _ => Option.none
  | .error e => some e

/-- The `migrate_siae` row loop (lines 241-278): `Siae.objects.create(**elem)`
is wrapped in `try/except Exception as e: print(e)`, so a failing row is
recorded as a printed error and the loop continues with the remaining rows.
`create` abstracts the per-row field preparation plus `Siae.objects.create`;
the result collects the created records and the printed errors. -/
def migrate_siae_loop {Row Rec Err : Type} (create : Row → Except Err Rec) :
    List Row → List Rec × List Err
  | [] => ([], [])
  | r :: rest =>
    match create r with
    | .ok rcd =>
      let rc := migrate_siae_loop create rest
      (rcd :: rc.1, rc.2)
    | .error e =>
      let rc := migrate_siae_loop create rest
      (rc.1, e :: rc.2)

/-- The `migrate_network` row loop (lines 319-331): `Network.objects.create`
is not inside any `try`, so the first failing row raises out of the loop and
the remaining rows are never processed.  The result is the records created
before the failure, together with the escaped exception if any. -/
def migrate_network_loop {Row Rec Err : Type} (create : Row → Except Err Rec) :
    List Row → List Rec × Option Err
  | [] => ([], Option.none)
  | r :: rest =>
    match create r with
    | .ok rcd =>
      let rc := migrate_network_loop create rest
      (rcd :: rc.1, rc.2)
    | .error e => ([], some e)

/-- Claim C3 counterexample: with two rows whose first creation fails,
`migrate_network_loop` aborts — nothing is created and the second row is never
reached — while the claim says every migrator catches the failure and
continues; `migrate_siae_loop` on the same input does continue and creates the
second record. -/
theorem migrate_network_loop_aborts :
    migrate_network_loop (fun n : Nat => if n = 1 then .error "boom" else .ok n) [1, 2]
        = ([], some "boom") ∧
    migrate_siae_loop (fun n : Nat => if n = 1 then .error "boom" else .ok n) [1, 2]
        = ([2], ["boom"]) := by
  constructor <;> rfl

/-- Claim C3 (amended): in `migrate_siae` (and `migrate_user`) per-row
creation failures are caught and printed and every row is attempted — the
created records are exactly the rows whose creation succeeds and the printed
errors exactly the failures; in `migrate_network` (and the other migrators
without a per-row `try`) a creation failure is not caught: the loop stops at
the first failing row, keeping only the records created before it. -/
theorem migrator_loop_error_handling {Row Rec Err : Type} :
    (∀ (create : Row → Except Err Rec) (rows : List Row),
      (migrate_siae_loop create rows).1
          = rows.filterMap (fun r => (create r).toOption) ∧
      (migrate_siae_loop create rows).2
          = rows.filterMap (fun r => exceptError (create r))) ∧
    (∀ (create : Row → Except Err Rec) (r : Row) (rest : List Row) (e : Err),
      create r = .error e → migrate_network_loop create (r :: rest) = ([], some e)) := by
  constructor
  · intro create rows
    induction rows with
    | nil => exact ⟨rfl, rfl⟩
    | cons r rest ih =>
      rcases hc : create r with e | rcd <;>
        simp [migrate_siae_loop, hc, exceptError, Except.toOption, ih.1, ih.2]
  · intro create r rest e hc
    simp [migrate_network_loop, hc]

/-- Witness for the amended claim C3: a failing first creation makes
`migrate_network_loop` abort at once. -/
theorem migrator_loop_error_handling_witness :
    migrate_network_loop (fun _ : Nat => (.error "e" : Except String Nat)) [0]
      = ([], some "e") :=
  (@migrator_loop_error_handling Nat Nat String).2 (fun _ => .error "e") 0 [] "e" rfl

/-! ### Delete-and-recreate lifecycle (claim C4) -/

/-- A destination `User` row, reduced to the field the delete step filters
on. -/
structure DbUser where
  api_key : Option String
deriving DecidableEq

/-- The delete step of `migrate_user` (line 670):
`User.objects.filter(api_key__isnull=True).delete()` — only the users without
an API key are deleted; users holding one survive. -/
def migrate_user_delete (pre : List DbUser) : List DbUser :=
  pre.filter (fun u => u.api_key.isSome)

/-- Destination `User` table contents after a `migrate_user` run: the
survivors of the delete step followed by the users the run creates. -/
def migrate_user_lifecycle (pre created : List DbUser) : List DbUser :=
  migrate_user_delete pre ++ created

/-- The delete step of `migrate_siae` (line 229) and of the other entity
migrators: `.objects.all().delete()` empties the destination table, so after
the run it holds exactly the created records. -/
def migrate_siae_lifecycle {SiaeRec : Type} (pre created : List SiaeRec) : List SiaeRec :=
  (fun _ => ([] : List SiaeRec)) pre ++ created

/-- Claim C4 counterexample: a pre-existing user holding an API key is still
present after a `migrate_user` run that created nothing, so not every post-run
record of that type was created by the run. -/
theorem migrate_user_lifecycle_keeps_api_key_users :
    (⟨some "key"⟩ : DbUser) ∈ migrate_user_lifecycle [⟨some "key"⟩] [] ∧
    (⟨some "key"⟩ : DbUser) ∉ ([] : List DbUser) := by
  constructor
  · simp [migrate_user_lifecycle, migrate_user_delete]
  · simp

/-- Claim C4 (amended): entity migrators such as `migrate_siae` delete every
destination record first, so every post-run record was created by that run;
`migrate_user` deletes only the users without an API key, so a post-run user
either was created by the run or is a pre-existing user holding an API key —
and every pre-existing user with an API key survives the run. -/
theorem migration_lifecycle (SiaeRec : Type) :
    (∀ pre created : List SiaeRec, migrate_siae_lifecycle pre created = created) ∧
    (∀ (pre created : List DbUser) (u : DbUser),
      u ∈ migrate_user_lifecycle pre created
        ↔ u ∈ created ∨ (u ∈ pre ∧ u.api_key.isSome)) := by
  constructor
  · intro pre created
    rfl
  · intro pre created u
    simp [migrate_user_lifecycle, migrate_user_delete, and_comm, or_comm]

/-- Witness for the amended claim C4: concrete instances of both halves. -/
theorem migration_lifecycle_witness :
    migrate_siae_lifecycle ([0] : List Nat) [1] = [1] ∧
    ((⟨some "k"⟩ : DbUser) ∈ migrate_user_lifecycle [⟨some "k"⟩] [⟨Option.none⟩]) :=
  ⟨(migration_lifecycle Nat).1 [0] [1],
   ((migration_lifecycle Nat).2 [⟨some "k"⟩] [⟨Option.none⟩] ⟨some "k"⟩).mpr
     (Or.inr ⟨by decide, by decide⟩)⟩

/-! ### `migrate_user` creation filter (claim C10) -/

/-- A legacy `user` row reduced to the columns `migrate_user` branches on.
`SELECT * FROM user` rows always carry every column, so an absent
`person_type` is the SQL NULL, modelled as `Option.none`.  `payload` stands
for the remaining columns, carried through unchanged. -/
structure LegacyUserRow where
  c4_id : Int
  person_type : Option Int
  roles : String
  payload : Nat
deriving DecidableEq

/-- The destination record `migrate_user` builds for one row (lines 676-710):
after the renames, `kind` is `map_user_kind(person_type)` and the staff flags
are set when the PHP-serialized `roles` string starts with the admin markers.
Modelled from the spec for the parts outside the sources: the `User.KIND_*`
constants are non-empty strings, so a mapped kind is always truthy in
`if elem["kind"]:`, and `is_staff`/`is_superuser` default to false when the
marker is absent. -/
structure NewUserRec where
  c4_id : Int
  kind : UserKind
  is_staff : Bool
  is_superuser : Bool
  payload : Nat
deriving DecidableEq

/-- The creation loop of `migrate_user` (lines 676-718): a destination user is
created only when the mapped kind is truthy (`# Note: we ignore users with
kind=None`); `create` abstracts `User.objects.create`, whose failures are
caught and printed (`except Exception as e: print("a", e)`). -/
def migrate_user_loop (create : NewUserRec → Except String Unit) :
    List LegacyUserRow → List NewUserRec
  | [] => []
  | row :: rest =>
    match map_user_kind row.person_type with
    | some k =>
      let rcd : NewUserRec :=
        { c4_id := row.c4_id, kind := k,
          is_staff := row.roles.startsWith "a:1:\x7bi:0;s:10",
          is_superuser := row.roles.startsWith "a:1:\x7bi:0;s:16",
          payload := row.payload }
      match create rcd with
      | .ok _ => rcd :: migrate_user_loop create rest
      | .error _ => migrate_user_loop create rest
    | Option.none => migrate_user_loop create rest

/-- Claim C10: rows whose `person_type` does not map to a kind — NULL,
unrecognized codes, and the unmapped legacy codes 1 and 2 — are skipped and
contribute no destination record: filtering them out of the input leaves the
output unchanged; NULL, 1 and 2 indeed map to no kind; and every created
record's kind comes from `map_user_kind` on some input row. -/
theorem migrate_user_only_mapped_kinds
    (create : NewUserRec → Except String Unit) (rows : List LegacyUserRow) :
    migrate_user_loop create rows
        = migrate_user_loop create
            (rows.filter (fun row => (map_user_kind row.person_type).isSome)) ∧
    map_user_kind Option.none = Option.none ∧
    map_user_kind (some 1) = Option.none ∧
    map_user_kind (some 2) = Option.none ∧
    (∀ r ∈ migrate_user_loop create rows,
      ∃ row ∈ rows, map_user_kind row.person_type = some r.kind) := by
  refine ⟨?_, rfl, rfl, rfl, ?_⟩
  · induction rows with
    | nil => rfl
    | cons row rest ih =>
      rcases hk : map_user_kind row.person_type with _ | k
      · simpa [migrate_user_loop, List.filter_cons, hk] using ih
      · simp only [migrate_user_loop, List.filter_cons, hk, Option.isSome_some,
          if_true, ih]
  · induction rows with
    | nil => intro r hr; cases hr
    | cons row rest ih =>
      intro r hr
      rcases hk : map_user_kind row.person_type with _ | k
      · simp only [migrate_user_loop, hk] at hr
        obtain ⟨row2, hmem, hmap⟩ := ih r hr
        exact ⟨row2, List.mem_cons_of_mem _ hmem, hmap⟩
      · simp only [migrate_user_loop, hk] at hr
        split at hr
        · rcases List.mem_cons.mp hr with hr1 | hr2
          · exact ⟨row, List.mem_cons_self _ _, by rw [hk, hr1]⟩
          · obtain ⟨row2, hmem, hmap⟩ := ih r hr2
            exact ⟨row2, List.mem_cons_of_mem _ hmem, hmap⟩
        · obtain ⟨row2, hmem, hmap⟩ := ih r hr
          exact ⟨row2, List.mem_cons_of_mem _ hmem, hmap⟩

/-- Witness for claim C10: a row with the unmapped legacy `person_type` 2 is
skipped, a row with code 4 is created as a SIAE user. -/
theorem migrate_user_only_mapped_kinds_witness :
    migrate_user_loop (fun _ => .ok ())
        [⟨10, some 2, "", 0⟩, ⟨11, some 4, "", 0⟩]
      = migrate_user_loop (fun _ => .ok ())
          (([⟨10, some 2, "", 0⟩, ⟨11, some 4, "", 0⟩] : List LegacyUserRow).filter
            (fun row => (map_user_kind row.person_type).isSome)) :=
  (migrate_user_only_mapped_kinds (fun _ => .ok ())
    [⟨10, some 2, "", 0⟩, ⟨11, some 4, "", 0⟩]).1

/-! ### `migrate_sector`: hierarchy builder and Sector creation (claims C6, C7) -/

/-- One `listing_category` row: its `id` and the self-referential
`parent_id`. -/
structure CatRow where
  id : Int
  parent_id : Option Int
deriving DecidableEq

/-- One entry of `sector_group_list`: `{"id": ..., "children": [...]}`. -/
structure GroupEntry where
  id : Int
  children : List Int
deriving DecidableEq

/-- Python truthiness of the `parent_id` column (`if not elem["parent_id"]`):
NULL and 0 are falsy. -/
def parentTruthy : Option Int → Bool
  | Option.none => false
  | some p => p != 0

/-- The lookup `next((index for (index, s) in enumerate(l) if pred s), None)`
used throughout the command. -/
def firstIdxWhere {α : Type} (p : α → Bool) : List α → Option Nat
  | [] => Option.none
  | x :: rest => if p x then some 0 else (firstIdxWhere p rest).map (· + 1)

/-- One step of the hierarchy scan of `migrate_sector` (lines 376-392): a row
with falsy `parent_id` appends a group entry unless one with its id already
exists; a child row appends its id to the children of the entry matching its
`parent_id`, first appending a placeholder entry (and attaching to it) when no
entry matches. -/
def addCatRow (acc : List GroupEntry) (row : CatRow) : List GroupEntry :=
  if parentTruthy row.parent_id then
    let p := row.parent_id.getD 0
    match firstIdxWhere (fun s => s.id == p) acc with
    | some i =>
      match acc[i]? with
      | some g => acc.set i { g with children := g.children ++ [row.id] }
      | Option.none => acc
    | Option.none => acc ++ [{ id := p, children := [row.id] }]
  else
    match firstIdxWhere (fun s => s.id == row.id) acc with
    | some _ => acc
    | Option.none => acc ++ [{ id := row.id, children := [] }]

/-- The hierarchy builder of `migrate_sector` (lines 375-392). -/
def build_sector_group_list (rows : List CatRow) : List GroupEntry :=
  rows.foldl addCatRow []

/-- Claim C7 counterexample: a single child row with `parent_id = 3` — and no
parent row with id 3 anywhere in the source — produces a placeholder group 3
holding the child, i.e. the child's group id matches no parent row seen in the
source (the only source row is a child, its `parent_id` being truthy). -/
theorem build_sector_group_list_placeholder :
    build_sector_group_list [⟨5, some 3⟩] = [⟨3, [5]⟩] ∧
    parentTruthy (some 3) = true := by
  constructor <;> rfl

/-- One `listing_category_translation` row, thinned to the used columns. -/
structure CatTransRow where
  translatable_id : Int
  locale : String
  name : String
  slug : String
deriving DecidableEq

/-- The lookup `next(s for s in resp if s["translatable_id"] == i and
s["locale"] == "fr")` (lines 401-414) — written without a default, so a
missing French translation raises `StopIteration`. -/
def findFrTranslation (trans : List CatTransRow) (i : Int) : Option CatTransRow :=
  trans.find? (fun s => s.translatable_id == i && s.locale == "fr")

/-- One created destination `Sector` row. -/
structure SectorRec where
  id : Int
  name : String
  slug : String
  group_id : Int
deriving DecidableEq

/-- The child-creation loop of `migrate_sector` (lines 409-421), threading the
slugs of the Sectors created so far.  Modelled from the spec for the database
layer outside the sources: "slug uniqueness within Sector is enforced", so
`Sector.objects.create` raises `IntegrityError` exactly when the requested
slug is already taken.  On a collision the create is retried once with the
slug suffixed by the parent group id (`f"{elem_data['slug']}-{group_id}"`); a
second `IntegrityError` is not caught and aborts the migrator. -/
def create_sector_children (trans : List CatTransRow) (group_id : Int) :
    List Int → List String → Except String (List SectorRec × List String)
  | [], used => .ok ([], used)
  | cid :: rest, used =>
    match findFrTranslation trans cid with
    | Option.none => .error "StopIteration"
    | some t =>
      if t.slug ∈ used then
        let slug_fix := t.slug ++ "-" ++ toString group_id
        if slug_fix ∈ used then .error "IntegrityError"
        else
          match create_sector_children trans group_id rest (slug_fix :: used) with
          | .ok (recs, used2) =>
            .ok ({ id := cid, name := t.name, slug := slug_fix,
                   group_id := group_id } :: recs, used2)
          | .error e => .error e
      else
        match create_sector_children trans group_id rest (t.slug :: used) with
        | .ok (recs, used2) =>
          .ok ({ id := cid, name := t.name, slug := t.slug,
                 group_id := group_id } :: recs, used2)
        | .error e => .error e

/-- The group loop of `migrate_sector` (lines 400-421): each group's French
translation is fetched (`StopIteration` when missing) and the `SectorGroup`
row created, then its children; the created `Sector` rows are returned
(`SectorGroup` rows live in a different table and do not interact with the
Sector slug constraint). -/
def create_sector_groups (trans : List CatTransRow) :
    List GroupEntry → List String → Except String (List SectorRec)
  | [], _ => .ok []
  | g :: rest, used =>
    match findFrTranslation trans g.id with
    | Option.none => .error "StopIteration"
    | some _ =>
      match create_sector_children trans g.id g.children used with
      | .error e => .error e
      | .ok (recs, used2) =>
        match create_sector_groups trans rest used2 with
        | .error e => .error e
        | .ok recs2 => .ok (recs ++ recs2)

/-- `migrate_sector` (lines 356-424): empty the Sector table, build the
hierarchy, then create the groups and sectors. -/
def migrate_sector (rows : List CatRow) (trans : List CatTransRow) :
    Except String (List SectorRec) :=
  create_sector_groups trans (build_sector_group_list rows) []

/-- Claim C6 counterexample: three children of the same group all slugged
"autre": the second collides and is created as "autre-1", but the third
collides again, the suffixed slug "autre-1" is also taken, and the
uncaught `IntegrityError` aborts the migrator — the suffixed slug is not
unique and the migration does not end with all slugs distinct. -/
theorem migrate_sector_double_collision :
    migrate_sector
        [⟨1, Option.none⟩, ⟨10, some 1⟩, ⟨11, some 1⟩, ⟨12, some 1⟩]
        [⟨1, "fr", "Groupe", "groupe"⟩, ⟨10, "fr", "Autre", "autre"⟩,
         ⟨11, "fr", "Autre", "autre"⟩, ⟨12, "fr", "Autre", "autre"⟩]
      = .error "IntegrityError" := by
  rfl

/-- Statement "some entry of `l` has id `p` and contains the child `c`",
phrased by index so that it is stable under `List.set`. -/
def hasChildAt (c p : Int) (l : List GroupEntry) : Prop :=
  ∃ (i : Nat) (g : GroupEntry), l[i]? = some g ∧ g.id = p ∧ c ∈ g.children

theorem firstIdxWhere_some {α : Type} (p : α → Bool) (l : List α) (i : Nat)
    (h : firstIdxWhere p l = some i) : ∃ x, l[i]? = some x ∧ p x = true := by
  induction l generalizing i with
  | nil => cases h
  | cons x rest ih =>
    by_cases hp : p x
    · simp only [firstIdxWhere, hp, if_true] at h
      cases h
      exact ⟨x, by simp, hp⟩
    · simp only [firstIdxWhere, hp, if_false, Bool.false_eq_true,
        Option.map_eq_some'] at h
      obtain ⟨j, hj, hij⟩ := h
      subst hij
      obtain ⟨y, hy, hpy⟩ := ih j hj
      exact ⟨y, by simpa using hy, hpy⟩

theorem addCatRow_mono (acc : List GroupEntry) (row : CatRow) (c p : Int)
    (h : hasChildAt c p acc) : hasChildAt c p (addCatRow acc row) := by
  obtain ⟨j, gj, hj, hid, hc⟩ := h
  have hjlt : j < acc.length := by
    by_contra hge
    push_neg at hge
    rw [List.getElem?_eq_none hge] at hj
    cases hj
  unfold addCatRow
  by_cases ht : parentTruthy row.parent_id
  · simp only [ht, if_true]
    rcases hidx : firstIdxWhere (fun s => s.id == row.parent_id.getD 0) acc with _ | i
    · simp only [hidx]
      exact ⟨j, gj, by rw [List.getElem?_append_left hjlt]; exact hj, hid, hc⟩
    · simp only [hidx]
      rcases hgi : acc[i]? with _ | g
      · simp only [hgi]
        exact ⟨j, gj, hj, hid, hc⟩
      · simp only [hgi]
        by_cases hij : j = i
        · subst hij
          have hg : gj = g := by rw [hj] at hgi; exact Option.some.inj hgi
          refine ⟨j, { g with children := g.children ++ [row.id] }, ?_, ?_, ?_⟩
          · rw [List.getElem?_set_eq_of_lt _ hjlt]
          · rw [← hg]; exact hid
          · rw [← hg]; exact List.mem_append_left _ hc
        · exact ⟨j, gj, by rw [List.getElem?_set_ne (Ne.symm hij)]; exact hj, hid, hc⟩
  · rw [Bool.not_eq_true] at ht
    simp only [ht, Bool.false_eq_true, if_false]
    rcases hidx : firstIdxWhere (fun s => s.id == row.id) acc with _ | i
    · simp only [hidx]
      exact ⟨j, gj, by rw [List.getElem?_append_left hjlt]; exact hj, hid, hc⟩
    · simp only [hidx]
      exact ⟨j, gj, hj, hid, hc⟩

theorem addCatRow_establishes (acc : List GroupEntry) (row : CatRow) (p : Int)
    (hp : row.parent_id = some p) (hp0 : p ≠ 0) :
    hasChildAt row.id p (addCatRow acc row) := by
  have ht : parentTruthy row.parent_id = true := by
    rw [hp]
    simpa [parentTruthy] using hp0
  have hgd : row.parent_id.getD 0 = p := by rw [hp]; rfl
  unfold addCatRow
  simp only [ht, if_true, hgd]
  rcases hidx : firstIdxWhere (fun s => s.id == p) acc with _ | i
  · simp only [hidx]
    exact ⟨acc.length, ⟨p, [row.id]⟩, List.getElem?_concat_length acc _, rfl, by simp⟩
  · simp only [hidx]
    obtain ⟨x, hx, hpx⟩ := firstIdxWhere_some _ acc i hidx
    rcases hgi : acc[i]? with _ | g
    · rw [hx] at hgi; cases hgi
    · simp only [hgi]
      have hxg : x = g := by rw [hx] at hgi; exact Option.some.inj hgi
      have hilt : i < acc.length := by
        by_contra hge
        push_neg at hge
        rw [List.getElem?_eq_none hge] at hx
        cases hx
      refine ⟨i, { g with children := g.children ++ [row.id] }, ?_, ?_, ?_⟩
      · rw [List.getElem?_set_eq_of_lt _ hilt]
      · have hgp := hpx
        rw [hxg] at hgp
        simpa using hgp
      · simp

theorem foldl_addCatRow_mono (rows : List CatRow) (acc : List GroupEntry) (c p : Int)
    (h : hasChildAt c p acc) : hasChildAt c p (rows.foldl addCatRow acc) := by
  induction rows generalizing acc with
  | nil => exact h
  | cons row rest ih => exact ih _ (addCatRow_mono acc row c p h)

/-- Claim C7 (amended): every child row (row with truthy `parent_id = p`) ends
up attached to a hierarchy entry whose id equals `p` — the id of a source
parent row when one was seen, of a placeholder entry created from the child's
`parent_id` otherwise. -/
theorem child_attached_to_parent_id (rows : List CatRow) (r : CatRow) (p : Int)
    (hmem : r ∈ rows) (hp : r.parent_id = some p) (hp0 : p ≠ 0) :
    ∃ g ∈ build_sector_group_list rows, g.id = p ∧ r.id ∈ g.children := by
  have key : ∀ (rows2 : List CatRow) (acc : List GroupEntry), r ∈ rows2 →
      hasChildAt r.id p (rows2.foldl addCatRow acc) := by
    intro rows2
    induction rows2 with
    | nil => intro acc hmm; cases hmm
    | cons row rest ih =>
      intro acc hmm
      rcases List.mem_cons.mp hmm with h1 | h2
      · subst h1
        exact foldl_addCatRow_mono rest _ _ _ (addCatRow_establishes acc r p hp hp0)
      · exact ih _ h2
  obtain ⟨i, g, hg, hid, hc⟩ := key rows [] hmem
  exact ⟨g, List.getElem?_mem hg, hid, hc⟩

/-- Witness for the amended claim C7 at a concrete source: the child 5 of the
seen parent row 1 is attached to the group entry with id 1. -/
theorem child_attached_to_parent_id_witness :
    ∃ g ∈ build_sector_group_list [⟨1, Option.none⟩, ⟨5, some 1⟩],
      g.id = 1 ∧ (5 : Int) ∈ g.children :=
  child_attached_to_parent_id [⟨1, Option.none⟩, ⟨5, some 1⟩] ⟨5, some 1⟩ 1
    (by decide) rfl (by decide)

theorem create_sector_children_inv (trans : List CatTransRow) (group_id : Int)
    (children : List Int) (used : List String) (recs : List SectorRec)
    (used2 : List String)
    (h : create_sector_children trans group_id children used = .ok (recs, used2)) :
    (∀ s ∈ used, s ∈ used2) ∧ (recs.map SectorRec.slug).Nodup ∧
    (∀ s ∈ recs.map SectorRec.slug, s ∉ used) ∧
    (∀ s ∈ recs.map SectorRec.slug, s ∈ used2) := by
  induction children generalizing used recs used2 with
  | nil =>
    simp only [create_sector_children, Except.ok.injEq, Prod.mk.injEq] at h
    obtain ⟨h1, h2⟩ := h
    subst h1
    subst h2
    exact ⟨fun s hs => hs, by simp, by simp, by simp⟩
  | cons cid rest ih =>
    rcases hft : findFrTranslation trans cid with _ | t
    · simp [create_sector_children, hft] at h
    · by_cases hin : t.slug ∈ used
      · by_cases hfix : (t.slug ++ "-" ++ toString group_id) ∈ used
        · simp [create_sector_children, hft, hin, hfix] at h
        · rcases hrec : create_sector_children trans group_id rest
              ((t.slug ++ "-" ++ toString group_id) :: used) with e | pr
          · simp [create_sector_children, hft, hin, hfix, hrec] at h
          · obtain ⟨recs1, used1⟩ := pr
            simp only [create_sector_children, hft, hin, if_true, hfix, if_false,
              hrec, Except.ok.injEq, Prod.mk.injEq] at h
            obtain ⟨h1, h2⟩ := h
            subst h1
            subst h2
            obtain ⟨mono1, nodup1, notin1, in1⟩ := ih _ _ _ hrec
            refine ⟨?_, ?_, ?_, ?_⟩
            · exact fun s hs => mono1 s (List.mem_cons_of_mem _ hs)
            · rw [List.map_cons]
              refine List.nodup_cons.mpr ⟨?_, nodup1⟩
              intro hmm
              exact notin1 _ hmm (List.mem_cons_self _ _)
            · intro s hs
              rw [List.map_cons, List.mem_cons] at hs
              rcases hs with hs1 | hs2
              · rw [hs1]; exact hfix
              · intro hsu
                exact notin1 s hs2 (List.mem_cons_of_mem _ hsu)
            · intro s hs
              rw [List.map_cons, List.mem_cons] at hs
              rcases hs with hs1 | hs2
              · rw [hs1]; exact mono1 _ (List.mem_cons_self _ _)
              · exact in1 s hs2
      · rcases hrec : create_sector_children trans group_id rest (t.slug :: used)
            with e | pr
        · simp [create_sector_children, hft, hin, hrec] at h
        · obtain ⟨recs1, used1⟩ := pr
          simp only [create_sector_children, hft, hin, if_false, hrec,
            Except.ok.injEq, Prod.mk.injEq] at h
          obtain ⟨h1, h2⟩ := h
          subst h1
          subst h2
          obtain ⟨mono1, nodup1, notin1, in1⟩ := ih _ _ _ hrec
          refine ⟨?_, ?_, ?_, ?_⟩
          · exact fun s hs => mono1 s (List.mem_cons_of_mem _ hs)
          · rw [List.map_cons]
            refine List.nodup_cons.mpr ⟨?_, nodup1⟩
            intro hmm
            exact notin1 _ hmm (List.mem_cons_self _ _)
          · intro s hs
            rw [List.map_cons, List.mem_cons] at hs
            rcases hs with hs1 | hs2
            · rw [hs1]; exact hin
            · intro hsu
              exact notin1 s hs2 (List.mem_cons_of_mem _ hsu)
          · intro s hs
            rw [List.map_cons, List.mem_cons] at hs
            rcases hs with hs1 | hs2
            · rw [hs1]; exact mono1 _ (List.mem_cons_self _ _)
            · exact in1 s hs2

theorem create_sector_groups_inv (trans : List CatTransRow) (gs : List GroupEntry)
    (used : List String) (recs : List SectorRec)
    (h : create_sector_groups trans gs used = .ok recs) :
    (recs.map SectorRec.slug).Nodup ∧ ∀ s ∈ recs.map SectorRec.slug, s ∉ used := by
  induction gs generalizing used recs with
  | nil =>
    simp only [create_sector_groups, Except.ok.injEq] at h
    subst h
    exact ⟨by simp, by simp⟩
  | cons g rest ih =>
    rcases hft : findFrTranslation trans g.id with _ | t
    · simp [create_sector_groups, hft] at h
    · rcases hch : create_sector_children trans g.id g.children used with e | pr
      · simp [create_sector_groups, hft, hch] at h
      · obtain ⟨recs1, used1⟩ := pr
        rcases hgs : create_sector_groups trans rest used1 with e | recs2
        · simp [create_sector_groups, hft, hch, hgs] at h
        · simp only [create_sector_groups, hft, hch, hgs, Except.ok.injEq] at h
          subst h
          obtain ⟨mono1, nodup1, notin1, in1⟩ :=
            create_sector_children_inv trans g.id g.children used recs1 used1 hch
          obtain ⟨nodup2, notin2⟩ := ih _ _ hgs
          constructor
          · rw [List.map_append]
            refine List.nodup_append.mpr ⟨nodup1, nodup2, ?_⟩
            intro s hs1 hs2
            exact notin2 s hs2 (in1 s hs1)
          · intro s hs
            rw [List.map_append, List.mem_append] at hs
            rcases hs with hs1 | hs2
            · exact notin1 s hs1
            · intro hsu
              exact notin2 s hs2 (mono1 s hsu)

/-- Claim C6 (amended): on a slug collision the child Sector is created with
the slug suffixed by the parent group id; if the suffixed slug is itself
already taken (e.g. a third child with the same slug in the same group) the
creation fails and the uncaught `IntegrityError` aborts the migrator; and
whenever `migrate_sector` completes, the created Sector slugs are pairwise
distinct. -/
theorem migrate_sector_slugs_nodup (rows : List CatRow) (trans : List CatTransRow)
    (recs : List SectorRec) (h : migrate_sector rows trans = .ok recs) :
    (recs.map SectorRec.slug).Nodup :=
  (create_sector_groups_inv trans (build_sector_group_list rows) [] recs h).1

/-- Witness for the amended claim C6: two children of group 1 both slugged
"autre" — the collision is resolved by the suffix "autre-1" and the created
slugs are distinct. -/
theorem migrate_sector_slugs_nodup_witness :
    (([⟨10, "Autre", "autre", 1⟩, ⟨11, "Autre", "autre-1", 1⟩] : List SectorRec).map
        SectorRec.slug).Nodup :=
  migrate_sector_slugs_nodup [⟨1, Option.none⟩, ⟨10, some 1⟩, ⟨11, some 1⟩]
    [⟨1, "fr", "Groupe", "groupe"⟩, ⟨10, "fr", "Autre", "autre"⟩,
     ⟨11, "fr", "Autre", "autre"⟩] _ rfl

/-! ### `migrate_siae_image`: three-table join (claim C2) and image-owner
resolution (claim C1) -/

/-- One `listing` row, thinned to the kept columns (lines 566-578). -/
structure ListingRow where
  id : Int
  user_id : Int
  created_at : Option Int
  updated_at : Option Int
deriving DecidableEq

/-- One `listing_translation` row (the used columns; `locale` is carried but —
unlike in `migrate_sector` — never filtered on). -/
structure ListingTransRow where
  translatable_id : Int
  locale : String
  title : Option String
  description : Option String
deriving DecidableEq

/-- One `listing_image` row. -/
structure ListingImageRow where
  id : Int
  listing_id : Int
  name : Option String
  position : Option Int
deriving DecidableEq

/-- The thin image dict kept by the third loop:
`{"listing_id", "image_name", "position"}` (`name` renamed to
`image_name`). -/
structure ImageThin where
  listing_id : Int
  image_name : Option String
  position : Option Int
deriving DecidableEq

/-- The translation fields merged into a listing by the second loop (`title`
renamed to `name`). -/
structure TransFields where
  name : Option String
  description : Option String
deriving DecidableEq

/-- An element of `siae_listing_list` after the three loops.  `translation` is
`some` exactly when a translation row was merged by `|=` (which then also adds
the key `translatable_id`, whose value equals `listing_id` by the match
condition). -/
structure JoinedListing where
  listing_id : Int
  user_id : Int
  created_at : Option Int
  updated_at : Option Int
  translation : Option TransFields
  images : List ImageThin
deriving DecidableEq

/-- The second loop of `migrate_siae_image` (lines 583-600): merge a
`listing_translation` row into the matching listing.  The guard is
`if siae_listing_index:` — Python truthiness on an `Optional[int]` — so a
match at index 0 (the first listing) is treated like no match and skipped. -/
def apply_listing_translation (acc : List JoinedListing) (row : ListingTransRow) :
    List JoinedListing :=
  match firstIdxWhere (fun si => si.listing_id == row.translatable_id) acc with
  | some i =>
    if i ≠ 0 then
      match acc[i]? with
      | some l => acc.set i { l with translation := some ⟨row.title, row.description⟩ }
      | Option.none => acc
    else acc
  | Option.none => acc

/-- The third loop of `migrate_siae_image` (lines 607-620): append a
`listing_image` row, thinned, to the matching listing's `images` — with the
same truthy-index guard skipping the listing at index 0. -/
def apply_listing_image (acc : List JoinedListing) (row : ListingImageRow) :
    List JoinedListing :=
  match firstIdxWhere (fun si => si.listing_id == row.listing_id) acc with
  | some i =>
    if i ≠ 0 then
      match acc[i]? with
      | some l =>
        acc.set i { l with images := l.images ++ [⟨row.listing_id, row.name, row.position⟩] }
      | Option.none => acc
    else acc
  | Option.none => acc

/-- The three-table in-memory join of `migrate_siae_image` (lines 559-620):
thin the `listing` rows, then fold the translation rows, then the image
rows. -/
def build_siae_listing_list (listings : List ListingRow) (trans : List ListingTransRow)
    (images : List ListingImageRow) : List JoinedListing :=
  let base := listings.map (fun l =>
    { listing_id := l.id, user_id := l.user_id, created_at := l.created_at,
      updated_at := l.updated_at, translation := Option.none,
      images := [] : JoinedListing })
  let withTrans := trans.foldl apply_listing_translation base
  images.foldl apply_listing_image withTrans

/-- Claim C2 at the failing input: two listings, one French translation and
one image for each.  The truthy-index guard drops the first listing's
translation and image (its match index is 0, which is falsy), while the second
listing is enriched with both — so the claimed join is not performed for every
listing row. -/
theorem build_siae_listing_list_drops_first :
    build_siae_listing_list
        [⟨1, 100, Option.none, Option.none⟩, ⟨2, 200, Option.none, Option.none⟩]
        [⟨1, "fr", some "T1", some "D1"⟩, ⟨2, "fr", some "T2", some "D2"⟩]
        [⟨41, 1, some "a.jpg", some 1⟩, ⟨42, 2, some "b.jpg", some 1⟩]
      = [⟨1, 100, Option.none, Option.none, Option.none, []⟩,
         ⟨2, 200, Option.none, Option.none, some ⟨some "T2", some "D2"⟩,
          [⟨2, some "b.jpg", some 1⟩]⟩] := by
  rfl

/-- A destination user with its related SIAE ids, as read by
`User.objects.prefetch_related("siaes").filter(c4_id=...)` (line 635). -/
structure DjangoUser where
  c4_id : Option Int
  siae_ids : List Int
deriving DecidableEq

/-- One created `SiaeImage` row (line 658): listing fields merged with one
image's fields, `listing_id` renamed `c4_listing_id`, `position` renamed
`order`, plus the resolved `siae_id`. -/
structure SiaeImageRec where
  siae_id : Int
  c4_listing_id : Int
  image_name : Option String
  order : Option Int
  name : Option String
  description : Option String
  created_at : Option Int
  updated_at : Option Int
deriving DecidableEq

/-- The `error_count` dict of `migrate_siae_image` (line 622). -/
structure ErrorCount where
  listing_without_image : Nat
  user_not_found : Nat
  user_no_siae : Nat
  user_multiple_siae : Nat
deriving DecidableEq

def ErrorCount.addNotFound (ec : ErrorCount) (n : Nat) : ErrorCount :=
  { ec with user_not_found := ec.user_not_found + n }

def ErrorCount.addNoSiae (ec : ErrorCount) (n : Nat) : ErrorCount :=
  { ec with user_no_siae := ec.user_no_siae + n }

def ErrorCount.addMultiple (ec : ErrorCount) (n : Nat) : ErrorCount :=
  { ec with user_multiple_siae := ec.user_multiple_siae + n }

/-- Owner resolution for one image of one listing (lines 628-658): look up the
users matching `c4_id`; if none, count `user_not_found`; otherwise branch on
the first user's SIAE count (source order: `> 1` counts `user_multiple_siae`,
`== 0` counts `user_no_siae`, else create — the list-shape match below is the
same case split).  On the create branch the dict pops `translatable_id` — a
`KeyError` aborting the migrator if no translation row was merged — and the
`SiaeImage` row is built. -/
def process_siae_image (userDb : List DjangoUser) (l : JoinedListing) (img : ImageThin)
    (ec : ErrorCount) : Except String (Option SiaeImageRec × ErrorCount) :=
  match userDb.filter (fun u => u.c4_id == some l.user_id) with
  | [] => .ok (Option.none, ec.addNotFound 1)
  | u :: _ =>
    match u.siae_ids with
    | [] => .ok (Option.none, ec.addNoSiae 1)
    | [s] =>
      match l.translation with
      | Option.none => .error "KeyError"
      | some t =>
        .ok (some { siae_id := s, c4_listing_id := l.listing_id,
                    image_name := img.image_name, order := img.position,
                    name := t.name, description := t.description,
                    created_at := l.created_at, updated_at := l.updated_at }, ec)
    | _ :: _ :: _ => .ok (Option.none, ec.addMultiple 1)

/-- The per-listing image loop (line 628): resolve every image in order,
collecting the created rows and threading the error counters. -/
def process_siae_images (userDb : List DjangoUser) (l : JoinedListing) :
    List ImageThin → ErrorCount → Except String (List SiaeImageRec × ErrorCount)
  | [], ec => .ok ([], ec)
  | img :: rest, ec =>
    match process_siae_image userDb l img ec with
    | .error e => .error e
    | .ok (r, ec2) =>
      match process_siae_images userDb l rest ec2 with
      | .error e => .error e
      | .ok (rs, ec3) => .ok (r.toList ++ rs, ec3)

/-- Processing of one joined listing (lines 623-658): an empty image list only
counts `listing_without_image`; otherwise every image is resolved in turn. -/
def process_siae_listing (userDb : List DjangoUser) (l : JoinedListing)
    (ec : ErrorCount) : Except String (List SiaeImageRec × ErrorCount) :=
  if l.images.isEmpty then
    .ok ([], { ec with listing_without_image := ec.listing_without_image + 1 })
  else process_siae_images userDb l l.images ec

/-- Claim C1 counterexample: a joined listing with two images whose user owns
exactly one SIAE yields two created `SiaeImage` rows — one per image — not
exactly one for the listing. -/
theorem process_siae_listing_two_images :
    process_siae_listing [⟨some 100, [7]⟩]
        ⟨1, 100, Option.none, Option.none, some ⟨some "T", some "D"⟩,
         [⟨1, some "a.jpg", some 1⟩, ⟨1, some "b.jpg", some 2⟩]⟩
        ⟨0, 0, 0, 0⟩
      = .ok ([⟨7, 1, some "a.jpg", some 1, some "T", some "D", Option.none, Option.none⟩,
              ⟨7, 1, some "b.jpg", some 2, some "T", some "D", Option.none, Option.none⟩],
             ⟨0, 0, 0, 0⟩) := by
  rfl

theorem process_siae_images_not_found (userDb : List DjangoUser) (l : JoinedListing)
    (hu : userDb.filter (fun u => u.c4_id == some l.user_id) = [])
    (imgs : List ImageThin) (ec : ErrorCount) :
    process_siae_images userDb l imgs ec = .ok ([], ec.addNotFound imgs.length) := by
  induction imgs generalizing ec with
  | nil =>
    simp [process_siae_images, ErrorCount.addNotFound]
  | cons img rest ih =>
    simp only [process_siae_images, process_siae_image, hu, ih]
    simp [ErrorCount.addNotFound, Nat.add_assoc, Nat.add_comm 1 rest.length]

theorem process_siae_images_no_siae (userDb : List DjangoUser) (l : JoinedListing)
    (u0 : DjangoUser) (us : List DjangoUser)
    (hu : userDb.filter (fun u => u.c4_id == some l.user_id) = u0 :: us)
    (hs : u0.siae_ids = [])
    (imgs : List ImageThin) (ec : ErrorCount) :
    process_siae_images userDb l imgs ec = .ok ([], ec.addNoSiae imgs.length) := by
  induction imgs generalizing ec with
  | nil =>
    simp [process_siae_images, ErrorCount.addNoSiae]
  | cons img rest ih =>
    simp only [process_siae_images, process_siae_image, hu, hs, ih]
    simp [ErrorCount.addNoSiae, Nat.add_assoc, Nat.add_comm 1 rest.length]

theorem process_siae_images_multiple (userDb : List DjangoUser) (l : JoinedListing)
    (u0 : DjangoUser) (us : List DjangoUser)
    (hu : userDb.filter (fun u => u.c4_id == some l.user_id) = u0 :: us)
    (s1 s2 : Int) (ss : List Int) (hs : u0.siae_ids = s1 :: s2 :: ss)
    (imgs : List ImageThin) (ec : ErrorCount) :
    process_siae_images userDb l imgs ec = .ok ([], ec.addMultiple imgs.length) := by
  induction imgs generalizing ec with
  | nil =>
    simp [process_siae_images, ErrorCount.addMultiple]
  | cons img rest ih =>
    simp only [process_siae_images, process_siae_image, hu, hs, ih]
    simp [ErrorCount.addMultiple, Nat.add_assoc, Nat.add_comm 1 rest.length]

theorem process_siae_images_one_siae (userDb : List DjangoUser) (l : JoinedListing)
    (u0 : DjangoUser) (us : List DjangoUser)
    (hu : userDb.filter (fun u => u.c4_id == some l.user_id) = u0 :: us)
    (s : Int) (hs : u0.siae_ids = [s]) (t : TransFields) (ht : l.translation = some t)
    (imgs : List ImageThin) (ec : ErrorCount) :
    process_siae_images userDb l imgs ec
      = .ok (imgs.map (fun img =>
          { siae_id := s, c4_listing_id := l.listing_id,
            image_name := img.image_name, order := img.position,
            name := t.name, description := t.description,
            created_at := l.created_at, updated_at := l.updated_at }), ec) := by
  induction imgs generalizing ec with
  | nil => simp [process_siae_images]
  | cons img rest ih =>
    simp only [process_siae_images, process_siae_image, hu, hs, ht, ih]
    simp

/-- Claim C1 (amended): for every joined listing with a non-empty image list,
one `SiaeImage` row is created per image — a listing with n images whose user
owns exactly one SIAE (and whose translation was merged) yields exactly n
created rows and no error count; when the user is not found, or owns no or
several SIAEs, zero rows are created and the corresponding typed counter is
incremented once per image (n times); and on the exactly-one-SIAE branch with
no merged translation the `KeyError` from popping `translatable_id` aborts the
migrator. -/
theorem process_siae_listing_resolution (userDb : List DjangoUser)
    (l : JoinedListing) (ec : ErrorCount) (himg : l.images ≠ []) :
    (userDb.filter (fun u => u.c4_id == some l.user_id) = [] →
      process_siae_listing userDb l ec = .ok ([], ec.addNotFound l.images.length)) ∧
    (∀ (u0 : DjangoUser) (us : List DjangoUser),
      userDb.filter (fun u => u.c4_id == some l.user_id) = u0 :: us →
      (u0.siae_ids = [] →
        process_siae_listing userDb l ec = .ok ([], ec.addNoSiae l.images.length)) ∧
      (∀ (s1 s2 : Int) (ss : List Int), u0.siae_ids = s1 :: s2 :: ss →
        process_siae_listing userDb l ec = .ok ([], ec.addMultiple l.images.length)) ∧
      (∀ s : Int, u0.siae_ids = [s] → ∀ t : TransFields, l.translation = some t →
        process_siae_listing userDb l ec
          = .ok (l.images.map (fun img =>
              { siae_id := s, c4_listing_id := l.listing_id,
                image_name := img.image_name, order := img.position,
                name := t.name, description := t.description,
                created_at := l.created_at, updated_at := l.updated_at }), ec)) ∧
      (∀ s : Int, u0.siae_ids = [s] → l.translation = Option.none →
        process_siae_listing userDb l ec = .error "KeyError")) := by
  have hne : l.images.isEmpty = false := by
    cases hI : l.images with
    | nil => exact absurd hI himg
    | cons a as => rfl
  constructor
  · intro hu
    simp only [process_siae_listing, hne, Bool.false_eq_true, if_false]
    exact process_siae_images_not_found userDb l hu l.images ec
  · intro u0 us hu
    refine ⟨?_, ?_, ?_, ?_⟩
    · intro hs
      simp only [process_siae_listing, hne, Bool.false_eq_true, if_false]
      exact process_siae_images_no_siae userDb l u0 us hu hs l.images ec
    · intro s1 s2 ss hs
      simp only [process_siae_listing, hne, Bool.false_eq_true, if_false]
      exact process_siae_images_multiple userDb l u0 us hu s1 s2 ss hs l.images ec
    · intro s hs t ht
      simp only [process_siae_listing, hne, Bool.false_eq_true, if_false]
      exact process_siae_images_one_siae userDb l u0 us hu s hs t ht l.images ec
    · intro s hs ht
      simp only [process_siae_listing, hne, Bool.false_eq_true, if_false]
      cases hI : l.images with
      | nil => exact absurd hI himg
      | cons img rest =>
        simp only [process_siae_images, process_siae_image, hu, hs, ht]

/-- Witness for the amended claim C1: one listing with a single image and a
user owning exactly one SIAE yields exactly that one created row. -/
theorem process_siae_listing_resolution_witness :
    process_siae_listing [⟨some 100, [7]⟩]
        ⟨1, 100, Option.none, Option.none, some ⟨some "T", some "D"⟩,
         [⟨1, some "a.jpg", some 1⟩]⟩
        ⟨0, 0, 0, 0⟩
      = .ok ([⟨7, 1, some "a.jpg", some 1, some "T", some "D", Option.none,
              Option.none⟩], ⟨0, 0, 0, 0⟩) := by
  have h := (process_siae_listing_resolution [⟨some 100, [7]⟩]
      ⟨1, 100, Option.none, Option.none, some ⟨some "T", some "D"⟩,
       [⟨1, some "a.jpg", some 1⟩]⟩
      ⟨0, 0, 0, 0⟩ (by decide)).2 ⟨some 100, [7]⟩ [] rfl
  exact (h.2.2.1 7 rfl ⟨some "T", some "D"⟩ rfl).trans (by rfl)

/-! ### Geocoding helper (`lemarche/utils/apis/geocoding.py`, claim C8) -/

/-- A JSON value, as decoded by `r.json()`.  Numerals are modelled as
integers; their values never influence the verified control flow. -/
inductive JValue
  | null
  | jbool (b : Bool)
  | jnum (n : Int)
  | jstr (s : String)
  | jarr (xs : List JValue)
  | jobj (fields : List (String × JValue))

/-- The Python exceptions relevant to the geocoding code paths. -/
inductive PyErr
  | keyError
  | indexError
  | typeError
  | attributeError
deriving DecidableEq

/-- Python truthiness of a decoded JSON value. -/
def JValue.falsy : JValue → Bool
  | .null => true
  | .jbool b => !b
  | .jnum n => n == 0
  | .jstr s => s == ""
  | .jarr xs => xs.isEmpty
  | .jobj fs => fs.isEmpty

/-- First-match lookup in a JSON object (Python dicts have unique keys). -/
def lookupField : List (String × JValue) → String → Option JValue
  | [], _ => Option.none
  | (k, v) :: rest, key => if k == key then some v else lookupField rest key

/-- Python subscript `j[key]` with a string key: `KeyError` on a dict without
the key, `TypeError` on any non-dict. -/
def subscriptJ (j : JValue) (key : String) : Except PyErr JValue :=
  match j with
  | .jobj fields =>
    match lookupField fields key with
    | some v => .ok v
    | Option.none => .error .keyError
  | _ => .error .typeError

/-- Python subscript `j[i]` with an integer index: out-of-range on a list is
`IndexError`, a dict without that key is `KeyError`, a character of a string
is returned, any other value is `TypeError`. -/
def indexJ (j : JValue) (i : Nat) : Except PyErr JValue :=
  match j with
  | .jarr xs =>
    match xs[i]? with
    | some v => .ok v
    | Option.none => .error .indexError
  | .jobj _ => .error .keyError
  | .jstr s =>
    match s.data[i]? with
    | some c => .ok (.jstr ⟨[c]⟩)
    | Option.none => .error .indexError
  | _ => .error .typeError

/-- Python `j.get(key)` on the decoded value: `None`-defaulting dict lookup,
`AttributeError` on any non-dict. -/
def dictGet (j : JValue) (key : String) : Except PyErr (Option JValue) :=
  match j with
  | .jobj fields => .ok (lookupField fields key)
  | _ => .error .attributeError

/-- The outcome of `requests.get(url)` followed by `r.json()`:
`networkError` is a raised `requests.RequestError`, `decodeError` a raised
`json.decoder.JSONDecodeError`, and `payload` a decoded body. -/
inductive ApiResponse
  | networkError
  | decodeError
  | payload (j : JValue)

/-- The expression `r.json()["features"][0]` (line 34). -/
def tryExtractFeature (j : JValue) : Except PyErr JValue :=
  match subscriptJ j "features" with
  | .error e => .error e
  | .ok fs => indexJ fs 0

/-- Python truthiness of the optional `post_code` argument (`if post_code:`):
`None` and the empty string are falsy. -/
def pyTruthyStr : Option String → Bool
  | Option.none => false
  | some s => !(s == "")

/-- `call_ban_geocoding_api(address)` with no (or a falsy) postal code
(lines 15-46).  The clause `except requests.RequestError` (line 29) names an
attribute the `requests` library does not have (its base class is
`RequestException`), and Python evaluates an `except` expression only once an
exception is in flight — so a raised network error makes the handler itself
raise `AttributeError`, which escapes to the caller.  An undecodable body is
logged and yields `None`; so do a missing `features` key (the `KeyError`
handler only logs, falling through to the implicit `None`) and an empty
feature list (no retry left); a `TypeError` — e.g. a body whose JSON is not an
object — is not handled and escapes. -/
def call_ban_no_postcode (resp : ApiResponse) : Except PyErr (Option JValue) :=
  match resp with
  | .networkError => .error .attributeError
  | .decodeError => .ok Option.none
  | .payload j =>
    match tryExtractFeature j with
    | .ok f => .ok (some f)
    | .error .indexError => .ok Option.none
    | .error .keyError => .ok Option.none
    | .error e => .error e

/-- `call_ban_geocoding_api(address, post_code, limit)` (lines 15-46).
`respond` abstracts the BAN HTTP endpoint as a function of whether the
`postcode` query parameter was sent (the `limit` parameter only affects the
URL).  A raised network error hits the broken `except requests.RequestError`
clause (a nonexistent attribute) and escapes as `AttributeError`.  With a
truthy `post_code`, an `IndexError` from an empty feature list triggers the
single retry `call_ban_geocoding_api(address)` — without the postal-code
filter and itself unable to retry again. -/
def call_ban_geocoding_api (respond : Option String → ApiResponse)
    (post_code : Option String) : Except PyErr (Option JValue) :=
  if pyTruthyStr post_code then
    match respond post_code with
    | .networkError => .error .attributeError
    | .decodeError => .ok Option.none
    | .payload j =>
      match tryExtractFeature j with
      | .ok f => .ok (some f)
      | .error .indexError => call_ban_no_postcode (respond Option.none)
      | .error .keyError => .ok Option.none
      | .error e => .error e
  else call_ban_no_postcode (respond Option.none)

/-- The normalized result of `process_geocoding_data` (lines 66-78); `coords`
stands for `GEOSGeometry` fed with the longitude/latitude pair. -/
structure GeoRecord where
  score : JValue
  address_line_1 : JValue
  number : Option JValue
  lane : Option JValue
  address : JValue
  post_code : JValue
  insee_code : JValue
  city : JValue
  longitude : JValue
  latitude : JValue
  coords : JValue × JValue

/-- `process_geocoding_data(data)` (lines 49-78): falsy data or a missing or
falsy `properties` entry yield `None`; past those guards every field access is
a bare subscript, so a feature without `geometry`/`coordinates` or without a
required property key raises (`KeyError`/`TypeError`) to the caller. -/
def process_geocoding_data (data : Option JValue) : Except PyErr (Option GeoRecord) :=
  match data with
  | Option.none => .ok Option.none
  | some d =>
    if d.falsy then .ok Option.none
    else
      match dictGet d "properties" with
      | .error e => .error e
      | .ok Option.none => .ok Option.none
      | .ok (some props) =>
        if props.falsy then .ok Option.none
        else do
          let geometry ← subscriptJ d "geometry"
          let coordsArr ← subscriptJ geometry "coordinates"
          let longitude ← indexJ coordsArr 0
          let latitude ← indexJ coordsArr 1
          let score ← subscriptJ props "score"
          let nameV ← subscriptJ props "name"
          let number ← dictGet props "housenumber"
          let lane ← dictGet props "street"
          let address ← subscriptJ props "name"
          let postCodeV ← subscriptJ props "postcode"
          let insee ← subscriptJ props "citycode"
          let city ← subscriptJ props "city"
          .ok (some { score := score, address_line_1 := nameV, number := number,
                      lane := lane, address := address, post_code := postCodeV,
                      insee_code := insee, city := city, longitude := longitude,
                      latitude := latitude, coords := (longitude, latitude) })

/-- `get_geocoding_data(address, post_code, limit)` (lines 81-88). -/
def get_geocoding_data (respond : Option String → ApiResponse)
    (post_code : Option String) : Except PyErr (Option GeoRecord) :=
  match call_ban_geocoding_api respond post_code with
  | .error e => .error e
  | .ok d => process_geocoding_data d

/-- Claim C8 counterexample: `process_geocoding_data` on a malformed feature —
truthy, with truthy `properties`, but no `geometry` key — raises `KeyError`
to the caller instead of returning `None`. -/
theorem process_geocoding_data_raises :
    process_geocoding_data (some (.jobj [("properties", .jobj [("score", .jnum 1)])]))
      = .error .keyError := by
  rfl

/-- Claim C8 (amended): an undecodable body, a decoded body without the
`features` key, and an empty feature list all yield `None` without raising;
with a truthy postal code an empty feature list triggers exactly one retry
without the postal-code filter (whose own result cannot retry again); but a
network failure escapes as `AttributeError` (the clause
`except requests.RequestError` names a nonexistent `requests` attribute and
itself raises once a network error is in flight), a decoded body that is not
a JSON object raises `TypeError` from `call_ban_geocoding_api`, and a feature
missing `geometry` or a required property key raises `KeyError` from
`process_geocoding_data`. -/
theorem geocoding_error_handling :
    (∀ pc : Option String,
      call_ban_geocoding_api (fun _ => .networkError) pc = .error .attributeError) ∧
    (∀ pc : Option String,
      call_ban_geocoding_api (fun _ => .decodeError) pc = .ok Option.none) ∧
    (∀ fields : List (String × JValue), lookupField fields "features" = Option.none →
      call_ban_no_postcode (.payload (.jobj fields)) = .ok Option.none) ∧
    call_ban_no_postcode (.payload (.jobj [("features", .jarr [])])) = .ok Option.none ∧
    (∀ (respond : Option String → ApiResponse) (pc : Option String) (j : JValue),
      pyTruthyStr pc = true → respond pc = .payload j →
      tryExtractFeature j = .error .indexError →
      call_ban_geocoding_api respond pc = call_ban_no_postcode (respond Option.none)) ∧
    (∀ xs : List JValue, call_ban_no_postcode (.payload (.jarr xs))
        = .error .typeError) ∧
    process_geocoding_data
        (some (.jobj [("properties", .jobj [("score", .jnum 1)]),
                      ("geometry", .jobj [("coordinates", .jarr [.jnum 2, .jnum 3])])]))
      = .error .keyError := by
  refine ⟨?_, ?_, ?_, by rfl, ?_, ?_, by rfl⟩
  · intro pc
    by_cases hpc : pyTruthyStr pc = true <;>
      simp [call_ban_geocoding_api, call_ban_no_postcode, hpc]
  · intro pc
    by_cases hpc : pyTruthyStr pc = true <;>
      simp [call_ban_geocoding_api, call_ban_no_postcode, hpc]
  · intro fields hf
    simp [call_ban_no_postcode, tryExtractFeature, subscriptJ, hf]
  · intro respond pc j hpc hresp hfeat
    simp [call_ban_geocoding_api, hpc, hresp, hfeat]
  · intro xs
    simp [call_ban_no_postcode, tryExtractFeature, subscriptJ]

/-- Witness for the amended claim C8: with a truthy postal code and an
endpoint returning an empty feature list either way, the call returns `None`
via the single retry. -/
theorem geocoding_error_handling_witness :
    call_ban_geocoding_api (fun _ => .payload (.jobj [("features", .jarr [])]))
        (some "75001")
      = .ok Option.none := by
  have h := geocoding_error_handling.2.2.2.2.1
    (fun _ => ApiResponse.payload (.jobj [("features", .jarr [])]))
    (some "75001") (.jobj [("features", .jarr [])]) (by rfl) rfl (by rfl)
  exact h.trans (by rfl)
